import Mathlib

/-!
Verification development for the conversational query-resolution pipeline of
`src/backend/main.py` (smart-data-qa).  The Python code is shallowly embedded:
strings are handled through their underlying character lists so that every
definition is executable and kernel-reducible, conversation state is passed
explicitly, and the external capabilities (language model, SQL execution) are
oracles supplied as parameters.
-/

namespace SQA

/-! ### Character and string primitives -/

/-- ASCII whitespace, modelling the whitespace set relevant to the code's
`strip`/`split` calls. -/
def isSpaceCh (c : Char) : Bool :=
  c == ' ' || c == '\t' || c == '\n' || c == '\r'

/-- Models Python `\w` for the character repertoire this code base works with:
ASCII alphanumerics, underscore, and CJK unified ideographs. -/
def isWordCh (c : Char) : Bool :=
  c.isAlphanum || c == '_' || (0x4E00 ≤ c.toNat && c.toNat ≤ 0x9FFF)

/-- Character class `[\w\s]` of the fossil-name pattern. -/
def wordOrSpaceCh (c : Char) : Bool :=
  isWordCh c || isSpaceCh c

/-- `chStartsWith s p` : the character list `s` starts with the pattern `p`. -/
def chStartsWith : List Char → List Char → Bool
  | _, [] => true
  | [], _ :: _ => false
  | a :: as, b :: bs => a == b && chStartsWith as bs

/-- Substring containment on character lists (Python's `pat in s`). -/
def listContains : List Char → List Char → Bool
  | [], pat => pat.isEmpty
  | a :: as, pat => chStartsWith (a :: as) pat || listContains as pat

/-- Python's `pat in s` on strings. -/
def hasSub (s pat : String) : Bool := listContains s.data pat.data

/-- Python's `s.startswith(pat)`. -/
def strStartsWith (s pat : String) : Bool := chStartsWith s.data pat.data

/-- Python's `s.lower()` (ASCII letters; CJK characters are unaffected). -/
def lowerStr (s : String) : String := ⟨s.data.map Char.toLower⟩

/-- Drop trailing characters satisfying `p`. -/
def dropTrailing (p : Char → Bool) (l : List Char) : List Char :=
  (l.reverse.dropWhile p).reverse

/-- Python's `s.strip()` on character lists. -/
def trimChars (l : List Char) : List Char :=
  dropTrailing isSpaceCh (l.dropWhile isSpaceCh)

/-- Python's `s.strip()`. -/
def strTrim (s : String) : String := ⟨trimChars s.data⟩

/-- Worker for `replaceAll`: `skip` counts separator characters still to be
consumed after a match (keeps the recursion structural). -/
def replaceAux (pat rep : List Char) : List Char → Nat → List Char
  | [], _ => []
  | c :: cs, k + 1 => replaceAux pat rep cs k
  | c :: cs, 0 =>
    if pat ≠ [] ∧ chStartsWith (c :: cs) pat = true then
      rep ++ replaceAux pat rep cs (pat.length - 1)
    else c :: replaceAux pat rep cs 0

/-- Python's `s.replace(pat, rep)`: replace all non-overlapping occurrences,
left to right. -/
def replaceAll (s pat rep : List Char) : List Char := replaceAux pat rep s 0

/-- Worker for `splitOnList`: `cur` is the current part reversed, `skip` the
separator characters still to be consumed after a match. -/
def splitOnAux (pat : List Char) : List Char → Nat → List Char → List (List Char)
  | [], _, cur => [cur.reverse]
  | c :: cs, k + 1, cur => splitOnAux pat cs k cur
  | c :: cs, 0, cur =>
    if pat ≠ [] ∧ chStartsWith (c :: cs) pat = true then
      cur.reverse :: splitOnAux pat cs (pat.length - 1) []
    else splitOnAux pat cs 0 (c :: cur)

/-- Python's `s.split(pat)` for a non-empty separator `pat`. -/
def splitOnList (s pat : List Char) : List (List Char) := splitOnAux pat s 0 []

/-- Python's `s.replace(pat, rep)` on strings. -/
def replaceStr (s pat rep : String) : String := ⟨replaceAll s.data pat.data rep.data⟩

/-- Helper for whitespace splitting: accumulates the current word reversed. -/
def splitWSAux : List Char → List Char → List (List Char)
  | [], acc => if acc.isEmpty then [] else [acc.reverse]
  | c :: cs, acc =>
    if isSpaceCh c then
      if acc.isEmpty then splitWSAux cs [] else acc.reverse :: splitWSAux cs []
    else splitWSAux cs (c :: acc)

/-- Python's `s.split()` (split on whitespace runs, no empty parts). -/
def splitWS (s : String) : List (List Char) := splitWSAux s.data []

/-- Python's `sep.join(parts)` on character lists. -/
def joinWith (sep : List Char) : List (List Char) → List Char
  | [] => []
  | [x] => x
  | x :: y :: t => x ++ sep ++ joinWith sep (y :: t)

/-- Python's `' '.join(s.split())` — whitespace normalisation used on SQL text. -/
def joinWords (s : String) : String := ⟨joinWith [' '] (splitWS s)⟩

/-- Python's `sep.join(strings)`. -/
def intercalateStr (sep : String) (l : List String) : String :=
  ⟨joinWith sep.data (l.map String.data)⟩

/-- Helper for collecting the digit runs of a string (Python `re.findall(r'\d+', s)`,
restricted to ASCII digits). -/
def digitRunsAux : List Char → List Char → List (List Char)
  | [], acc => if acc.isEmpty then [] else [acc.reverse]
  | c :: cs, acc =>
    if c.isDigit then digitRunsAux cs (c :: acc)
    else if acc.isEmpty then digitRunsAux cs [] else acc.reverse :: digitRunsAux cs []

/-- First embedded integer literal of a string, as text. -/
def firstDigitRun (s : String) : Option String :=
  ((digitRunsAux s.data []).head?).map (⟨·⟩)

/-! ### A small regex fragment

The resolver uses `re.search` with patterns of the shapes `(\w+)suffix`,
`(\w+suffix)`, `(lit\w+)` and `([\w\s]+suffix)`, possibly in an ordered
alternation.  We model exactly these: leftmost match position wins, and within
a position a greedy run is backtracked from its maximal length. -/

/-- Greedy backtracking: largest `k ∈ [1, bound]` such that the suffix matcher
accepts the rest of the input after `k` consumed characters. -/
def largestK (bound : Nat) (s : List Char) (sufMatch : List Char → Bool) : Option Nat :=
  match bound with
  | 0 => none
  | k + 1 => if sufMatch (s.drop (k + 1)) then some (k + 1) else largestK k s sufMatch

/-- Match `(cls+)suffix` at the start of `s`; return the match text
(including the suffix characters when `incl` is set, as when the capture
group wraps the whole alternative). -/
def altRunThen (cls : Char → Bool) (sufMatch : List Char → Bool) (sufLen : Nat)
    (incl : Bool) (s : List Char) : Option (List Char) :=
  let run := s.takeWhile cls
  if run.isEmpty then none
  else
    match largestK run.length s sufMatch with
    | some k => some (s.take (if incl then k + sufLen else k))
    | none => none

/-- Match `lit cls+` at the start of `s` (capture includes the literal). -/
def altLitRun (lit : List Char) (cls : Char → Bool) (s : List Char) : Option (List Char) :=
  if chStartsWith s lit then
    let run := (s.drop lit.length).takeWhile cls
    if run.isEmpty then none else some (lit ++ run)
  else none

/-- Try the alternatives of a pattern, in order, at one position. -/
def tryAlts (alts : List (List Char → Option (List Char))) (s : List Char) :
    Option (List Char) :=
  match alts with
  | [] => none
  | f :: fs =>
    match f s with
    | some r => some r
    | none => tryAlts fs s

/-- `re.search`: scan positions left to right, trying the alternation at each. -/
def reSearch (alts : List (List Char → Option (List Char))) : List Char → Option (List Char)
  | [] => tryAlts alts []
  | c :: cs =>
    match tryAlts alts (c :: cs) with
    | some r => some r
    | none => reSearch alts cs

/-- Try whole-string searches for several patterns in order; first pattern
with a match anywhere wins (the resolver's entity-pattern loop). -/
def searchFirstOf (pats : List (List Char → Option (List Char))) (s : List Char) :
    Option (List Char) :=
  match pats with
  | [] => none
  | p :: ps =>
    match reSearch [p] s with
    | some r => some r
    | none => searchFirstOf ps s

/-- Exact suffix matcher. -/
def sufIs (suffix : List Char) : List Char → Bool := fun l => chStartsWith l suffix

/-- Case-insensitive suffix matcher (for `re.IGNORECASE`). -/
def sufIsCI (suffix : List Char) : List Char → Bool :=
  fun l => chStartsWith (l.map Char.toLower) suffix

/-- `re.search(r'(\w+)部门', s)` — capture excludes `部门`. -/
def searchDept (s : String) : Option String :=
  (reSearch [altRunThen isWordCh (sufIs "部门".data) 2 false] s.data).map (⟨·⟩)

/-- The ordered entity-pattern loop for `它`:
`(\w+属)`, `(\w+样品)`, `(\w+纪)`, `(\w+化石)` — captures include the suffix. -/
def searchItEntity (s : String) : Option String :=
  (searchFirstOf
    [altRunThen isWordCh (sufIs "属".data) 1 true,
     altRunThen isWordCh (sufIs "样品".data) 2 true,
     altRunThen isWordCh (sufIs "纪".data) 1 true,
     altRunThen isWordCh (sufIs "化石".data) 2 true] s.data).map (⟨·⟩)

/-- `re.search(r'([\w\s]+化石|[\w\s]+fossil)', s, re.IGNORECASE)`. -/
def searchFossil (s : String) : Option String :=
  (reSearch
    [altRunThen wordOrSpaceCh (sufIs "化石".data) 2 true,
     altRunThen wordOrSpaceCh (sufIsCI "fossil".data) 6 true] s.data).map (⟨·⟩)

/-- `re.search(r'(\w+属|最早的\w+)', s)`. -/
def searchGenusOrEarliest (s : String) : Option String :=
  (reSearch
    [altRunThen isWordCh (sufIs "属".data) 1 true,
     altLitRun "最早的".data isWordCh] s.data).map (⟨·⟩)

/-- `re.search(r'(最早的\w+|\w+属|\w+样品)', s)`. -/
def searchTimeEntity (s : String) : Option String :=
  (reSearch
    [altLitRun "最早的".data isWordCh,
     altRunThen isWordCh (sufIs "属".data) 1 true,
     altRunThen isWordCh (sufIs "样品".data) 2 true] s.data).map (⟨·⟩)

/-- `re.search(r'(最早的\w+|\w+化石|\w+属)', s)`. -/
def searchPlaceEntity (s : String) : Option String :=
  (reSearch
    [altLitRun "最早的".data isWordCh,
     altRunThen isWordCh (sufIs "化石".data) 2 true,
     altRunThen isWordCh (sufIs "属".data) 1 true] s.data).map (⟨·⟩)

/-! ### Conversation turns and the narrative/trace split -/

/-- One stored turn: (question text, full answer text). -/
abbrev Turn := String × String

/-- `extract_answer_from_full_response` (main.py:162): strip the embedded
SQL-trace display from a stored answer, keeping only the narrative. -/
def extract_answer_from_full_response (full : String) : String :=
  if hasSub full "🔍 **SQL查询**:" then
    let parts := splitOnList full.data "```".data
    if 3 ≤ parts.length then
      ⟨trimChars ((trimChars (parts.getD 2 [])).dropWhile (· == '\n'))⟩
    else full
  else full

/-- `has_implicit_context_reference` (main.py:178). -/
def has_implicit_context_reference (question : String) (history : List Turn) : Bool :=
  if history.isEmpty then false
  else
    let ql := lowerStr question
    let indicators : List String :=
      ["哪一年", "什么时候", "在哪里", "怎么", "为什么", "多少",
       "是哪", "是什么", "是谁", "是怎么", "有多", "有什么"]
    if indicators.any (fun ind =>
        strStartsWith ql ind && decide ((strTrim question).data.length < 30)) then
      true
    else
      decide ((splitWS (strTrim question)).length ≤ 8) &&
        (["什么", "哪", "怎么", "为什么", "多少", "何时"] : List String).any
          (fun w => hasSub ql w)

/-- `has_pronoun_reference` (main.py:203). -/
def has_pronoun_reference (question : String) : Bool :=
  (["他们", "它们", "这个", "这些", "那个", "那些", "他", "她", "它", "其", "此"] :
    List String).any (fun p => hasSub question p)

/-- Body of `process_pronoun_references` (main.py:208) once the last turn has
been fetched: `lastAnswer` is already the extracted narrative, and
`implicitRef` is `has_implicit_context_reference(question, history)`. -/
def processWithLast (question lastQuestion lastAnswer : String) (implicitRef : Bool) :
    String :=
  let p1 :=
    if hasSub question "他们" && hasSub lastAnswer "部门" then
      match searchDept lastAnswer with
      | some dept => replaceStr question "他们" (dept ++ "部门")
      | none =>
        if hasSub lastAnswer "平均工资最高的部门" || hasSub lastAnswer "平均薪资最高" then
          replaceStr question "他们" "平均工资最高的部门"
        else question
    else question
  let p2 :=
    if hasSub question "它" then
      match searchItEntity lastAnswer with
      | some entity => replaceStr p1 "它" entity
      | none => p1
    else p1
  let ql := lowerStr question
  let p3 :=
    if implicitRef then
      if hasSub ql "哪一年" || hasSub ql "什么时候" then
        match searchFossil lastAnswer with
        | some fossilName => fossilName ++ p2
        | none =>
          if (searchGenusOrEarliest lastAnswer).isSome then
            match searchTimeEntity lastAnswer with
            | some entity => entity ++ p2
            | none => p2
          else p2
      else if hasSub ql "在哪里" || hasSub ql "哪个地方" then
        match searchPlaceEntity lastAnswer with
        | some entity => entity ++ p2
        | none => p2
      else p2
    else p2
  if hasSub question "这个" || hasSub question "这些" then
    if hasSub lastQuestion "部门" then
      replaceStr (replaceStr p3 "这个" "这个部门") "这些" "这些部门"
    else if hasSub lastQuestion "样品" || hasSub lastQuestion "化石" then
      replaceStr (replaceStr p3 "这个" "这个化石") "这些" "这些化石"
    else p3
  else p3

/-- `process_pronoun_references` (main.py:208): the Reference Resolver. -/
def process_pronoun_references (question : String) (history : List Turn) : String :=
  match history.getLast? with
  | none => question
  | some (lastQuestion, lastFullAnswer) =>
    processWithLast question lastQuestion
      (extract_answer_from_full_response lastFullAnswer)
      (has_implicit_context_reference question history)

/-! ### Result rows -/

/-- A cell value of a result row.  `vnum` carries an exact rational standing for
a float cell; rendering is faithful for whole-valued floats, which is all the
reachable formatting paths of the claims use. -/
inductive Val where
  | vstr (s : String)
  | vint (z : Int)
  | vnum (q : ℚ)

/-- Python `str(v)` / f-string rendering of a cell value. -/
def renderVal : Val → String
  | .vstr s => s
  | .vint z => toString z
  | .vnum q =>
    if q.den == 1 then toString q.num ++ ".0"
    else toString q.num ++ "/" ++ toString q.den

/-- A result row: an ordered key/value mapping (`df.to_dict('records')` entry). -/
abbrev Row := List (String × Val)

/-- First value for a key (Python dict lookup). -/
def lookupRow (r : Row) (k : String) : Option Val :=
  match r with
  | [] => none
  | (k2, v) :: t => if k2 == k then some v else lookupRow t k

/-- Python `k in row`. -/
def hasKey (r : Row) (k : String) : Bool := (lookupRow r k).isSome

/-- Python `row.get(k, dflt)` rendered into text. -/
def rowGetRender (r : Row) (k dflt : String) : String :=
  match lookupRow r k with
  | some v => renderVal v
  | none => dflt

/-- `', '.join(f"{k}: {v}" for k, v in row.items())`. -/
def joinRow (r : Row) : String :=
  intercalateStr ", " (r.map fun kv => kv.1 ++ ": " ++ renderVal kv.2)

/-- Round half to even, modelling Python's `:.2f` rounding on exact rationals. -/
def roundHalfEven (x : ℚ) : ℤ :=
  let f := x.floor
  let r := x - f
  if r < 1/2 then f else if 1/2 < r then f + 1 else if f % 2 = 0 then f else f + 1

/-- Python `f"{q:.2f}"` on an exact rational. -/
def fmt2 (q : ℚ) : String :=
  let n := roundHalfEven (q * 100)
  let a := n.natAbs
  (if n < 0 then "-" else "") ++ toString (a / 100) ++ "." ++
    (if a % 100 < 10 then "0" else "") ++ toString (a % 100)

/-- Python `f"{v:.2f}"`: raises `ValueError` on a non-numeric cell, modelled as
an `Except.error` carrying the CPython message. -/
def fmt2Val : Val → Except String String
  | .vnum q => .ok (fmt2 q)
  | .vint z => .ok (fmt2 (z : ℚ))
  | .vstr _ => .error "Unknown format code 'f' for object of type 'str'"

/-- Numbered record list: `f"{i}. " + ", ".join(...) + "\n"` per row. -/
def enumRowsFrom (i : Nat) : List Row → String
  | [] => ""
  | r :: t => toString i ++ ". " ++ joinRow r ++ "\n" ++ enumRowsFrom (i + 1) t

/-! ### Result Formatter (`format_answer`, main.py:363)

The order-sensitive keyword decision table.  Branches that can fall through in
the Python code are chained explicitly; branches applying `:.2f` formatting to
a cell can raise, hence the `Except`. -/

/-- Default branch of `format_answer` (main.py:471-492). -/
def fmtDefault (result : List Row) : String :=
  match result with
  | [[(_, v)]] => "查询结果：" ++ renderVal v
  | _ =>
    if result.length ≤ 5 then
      "查询到" ++ toString result.length ++ "条记录：\n\n" ++ enumRowsFrom 1 result
    else
      "查询到" ++ toString result.length ++ "条记录，显示前5条：\n\n" ++
        enumRowsFrom 1 (result.take 5) ++
        "... 还有" ++ toString (result.length - 5) ++ "条记录"

/-- Possessive/filter branch of `format_answer` (main.py:454-469). -/
def fmtFiltered (ql : String) (result : List Row) : String :=
  if hasSub ql "的" && decide (0 < result.length) then
    match result with
    | [r] => "查找到1条记录：\n" ++ joinRow r
    | _ =>
      "查找到" ++ toString result.length ++ "条记录：\n\n" ++
        enumRowsFrom 1 (result.take 10) ++
        (if 10 < result.length then
          "... 还有" ++ toString (result.length - 10) ++ "条记录"
        else "")
  else fmtDefault result

/-- One cell of the grouped-statistics branch (main.py:443-450). -/
def fmtGroupCell (kv : String × Val) : Except String String :=
  if hasSub (lowerStr kv.1) "count" || hasSub kv.1 "数量" then
    .ok (renderVal kv.2 ++ "人")
  else if hasSub (lowerStr kv.1) "avg" || hasSub kv.1 "平均" then
    (fmt2Val kv.2).map (fun f => "平均" ++ f)
  else .ok (kv.1 ++ ": " ++ renderVal kv.2)

/-- One row of the grouped-statistics branch. -/
def fmtGroupRow (r : Row) : Except String String := do
  let parts ← r.mapM fmtGroupCell
  return "• " ++ intercalateStr ", " parts ++ "\n"

/-- Grouped-statistics branch of `format_answer` (main.py:438-452). -/
def fmtGrouped (ql : String) (result : List Row) : Except String String :=
  if hasSub ql "各" && (hasSub ql "部门" || hasSub ql "分组") then do
    let rows ← result.mapM fmtGroupRow
    return "统计结果如下：\n\n" ++ String.join rows
  else .ok (fmtFiltered ql result)

/-- Average branch of `format_answer` (main.py:419-436). -/
def fmtAverage (ql : String) (result : List Row) : Except String String :=
  if hasSub ql "平均" then
    match result with
    | [[(_, v)]] => do
      let f ← fmt2Val v
      if hasSub ql "薪资" || hasSub ql "工资" then
        return "平均薪资为 " ++ f ++ " 元。"
      else
        return "平均值为 " ++ f ++ "。"
    | [r] =>
      if hasKey r "department" && hasKey r "avg_salary" then do
        let f ← fmt2Val ((lookupRow r "avg_salary").getD (.vstr ""))
        let dept := rowGetRender r "department" ""
        if hasSub ql "最高" then
          return "平均工资最高的部门是 " ++ dept ++ "，平均工资为 " ++ f ++ " 元。"
        else if hasSub ql "最低" then
          return "平均工资最低的部门是 " ++ dept ++ "，平均工资为 " ++ f ++ " 元。"
        else
          return dept ++ " 的平均工资为 " ++ f ++ " 元。"
      else fmtGrouped ql result
    | _ => fmtGrouped ql result
  else fmtGrouped ql result

/-- `format_answer` (main.py:363): empty rows yield the unknown sentinel, then
the fixed keyword decision table dispatches, first matching branch wins. -/
def format_answer (question sqlQuery : String) (result : List Row)
    (tableName : String) : Except String String :=
  match result with
  | [] => .ok "我不知道"
  | r0 :: rest =>
    let ql := lowerStr question
    if (hasSub ql "多少" || hasSub ql "数量" || hasSub ql "count") &&
        rest.isEmpty && decide (r0.length = 1) then
      let count := renderVal ((r0.headD ("", .vstr "")).2)
      if hasSub ql "行" then .ok ("数据总共有 " ++ count ++ " 行。")
      else if hasSub ql "人" then .ok ("共有 " ++ count ++ " 人。")
      else .ok ("总数量为 " ++ count ++ "。")
    else if hasSub ql "前" && (hasSub ql "条" || hasSub ql "行") then
      .ok ("以下是前" ++ (firstDigitRun question).getD "几" ++ "条记录：\n\n" ++
        enumRowsFrom 1 (r0 :: rest))
    else if hasSub ql "最高" || hasSub ql "最大" then
      if hasSub ql "薪资" then
        .ok ("薪资最高的是 " ++ rowGetRender r0 "姓名" "未知" ++ "，薪资为 " ++
          rowGetRender r0 "薪资" "未知" ++ " 元。")
      else .ok ("最大值记录：" ++ joinRow r0)
    else if hasSub ql "最低" || hasSub ql "最小" then
      if hasSub ql "薪资" then
        .ok ("薪资最低的是 " ++ rowGetRender r0 "姓名" "未知" ++ "，薪资为 " ++
          rowGetRender r0 "薪资" "未知" ++ " 元。")
      else .ok ("最小值记录：" ++ joinRow r0)
    else fmtAverage ql (r0 :: rest)

/-! ### Summarization capability (`analyze_with_llm`, main.py:303) -/

/-- The external language model: prompt to returned content, `none` meaning the
invocation raised. -/
abbrev LLM := String → Option String

/-- Python `repr` of a cell value as it appears in the f-string `{result}`
(string quoting is approximated without escaping). -/
def pyReprVal : Val → String
  | .vstr s => "\x27" ++ s ++ "\x27"
  | .vint z => toString z
  | .vnum q => renderVal (.vnum q)

/-- Python `repr` of a row dict. -/
def pyReprRow (r : Row) : String :=
  "\x7b" ++ intercalateStr ", " (r.map fun kv => "\x27" ++ kv.1 ++ "\x27: " ++ pyReprVal kv.2) ++ "\x7d"

/-- Python `repr` of the result list. -/
def pyReprRows (rs : List Row) : String :=
  "[" ++ intercalateStr ", " (rs.map pyReprRow) ++ "]"

/-- The numbered history lines of the analysis context
(`enumerate(conversation_history[-3:])`, main.py:316-319); each prior answer is
reduced to its narrative first. -/
def contextEntries (i : Nat) : List Turn → String
  | [] => ""
  | (pq, pfa) :: t =>
    toString (i + 1) ++ ". 问题：" ++ pq ++ "\n   回答：" ++
      extract_answer_from_full_response pfa ++ "\n" ++ contextEntries (i + 1) t

/-- `context_info` of `analyze_with_llm` (main.py:313-325). -/
def contextInfoOf (question : String) (history : List Turn) : String :=
  if history.isEmpty then ""
  else
    let s := "\n\n对话历史：\n" ++ contextEntries 0 (history.drop (history.length - 3))
    let s :=
      if has_implicit_context_reference question history || has_pronoun_reference question then
        s ++ "\n重要提示：当前问题似乎与上一个问题的答案相关。请仔细分析对话历史，理解当前问题所指的具体对象或实体。\n"
      else s
    s ++ "\n请根据对话历史理解当前问题中的代词和上下文引用。\n"

/-- The full analysis prompt (`context`, main.py:328-347). -/
def analysisPrompt (question sqlQuery : String) (result : List Row)
    (history : List Turn) : String :=
  "\n用户问题：" ++ question ++
  "\n\n执行的SQL查询：\n" ++ sqlQuery ++
  "\n\n查询结果：\n" ++ pyReprRows result ++ contextInfoOf question history ++
  "\n\n请分析查询结果并回答用户的问题。要求：\n" ++
  "1. 直接回答用户的问题，不要重复查询结果的原始数据\n" ++
  "2. 如果用户使用了代词（如\"他们\"、\"它\"、\"这个\"等），请结合对话历史来理解指代内容\n" ++
  "3. 如果涉及时间/年代比较，请提供专业的时间顺序分析\n" ++
  "4. 如果涉及地质年代（如Silurian, Carboniferous等），请说明它们的时间关系\n" ++
  "5. 如果涉及地质演化程度，请考虑SiO2、MgO、K2O等化学成分的意义\n" ++
  "6. 如果是数值比较，请明确指出最大/最小值\n" ++
  "7. 如果是统计分析，请提供清晰的总结\n" ++
  "8. 请用中文回答，语言简洁专业\n" ++
  "9. 如果无法得出明确结论，请直接回答\"我不知道\"\n"

/-- `analyze_with_llm` (main.py:303): empty result or absent/raising model
yields the unknown sentinel. -/
def analyze_with_llm (question sqlQuery : String) (result : List Row)
    (llm : Option LLM) (history : List Turn) : String :=
  if result.isEmpty then "我不知道"
  else
    match llm with
    | none => "我不知道"
    | some f =>
      match f (analysisPrompt question sqlQuery result history) with
      | some content => content
      | none => "我不知道"

/-! ### Answer Assembler (`create_full_response`, main.py:494) -/

/-- The SQL-trace display prepended to every assembled answer
(`clean_sql` is the whitespace-normalised query text). -/
def mkTrace (sqlQuery : String) : String :=
  "🔍 **SQL查询**: ```sql\n" ++ joinWords sqlQuery ++ "\n```\n\n"

/-- `create_full_response` (main.py:494): prefer the summarization output when
it is non-empty and not the sentinel, else fall back to the Formatter; in both
cases the trace display is prepended. -/
def create_full_response (question sqlQuery : String) (result : List Row)
    (tableName : String) (history : List Turn) (llm : Option LLM) :
    Except String String :=
  match llm with
  | some f =>
    let a := analyze_with_llm question sqlQuery result (some f) history
    if a ≠ "" ∧ a ≠ "我不知道" then .ok (mkTrace sqlQuery ++ a)
    else (format_answer question sqlQuery result tableName).map
      (fun b => mkTrace sqlQuery ++ b)
  | none =>
    (format_answer question sqlQuery result tableName).map
      (fun b => mkTrace sqlQuery ++ b)

/-! ### Query Planner (main.py:654-741) -/

/-- Tier-1 sanitization of the external NL-to-query output (main.py:670-694):
strip code fences, then collect lines from the first line starting with
SELECT/WITH up to a line ending in `;`, skipping comment and blank lines.
`none` when no opening line is found. -/
def collectSqlLines : List (List Char) → Bool → List (List Char)
  | [], _ => []
  | l :: ls, inSql =>
    let line := trimChars l
    if chStartsWith (line.map Char.toUpper) "SELECT".data ||
        chStartsWith (line.map Char.toUpper) "WITH".data then
      line :: collectSqlLines ls true
    else if inSql then
      if line.getLast? == some ';' then [line]
      else if !line.isEmpty && !chStartsWith line "--".data then
        line :: collectSqlLines ls true
      else collectSqlLines ls true
    else collectSqlLines ls false

/-- The line-scanning cleanup of the tier-1 output. -/
def sanitizeLLMSql (s : String) : Option String :=
  let cleaned := trimChars (replaceAll (replaceAll s.data "```sql".data []) "```".data [])
  let sqlLines := collectSqlLines (splitOnList cleaned "\n".data) false
  if sqlLines.isEmpty then none else some ⟨joinWith " ".data sqlLines⟩

/-- `generate_contextual_query` (main.py:287): tier 3, keyed on the processed
question and on the raw stored answer of the last turn. -/
def generate_contextual_query (processed : String) (history : List Turn)
    (tableName : String) : String :=
  match history.getLast? with
  | none => "SELECT * FROM " ++ tableName ++ " LIMIT 10"
  | some (_, lastAnswer) =>
    if hasSub processed "平均工资" && hasSub lastAnswer "平均工资最高" then
      "SELECT department, AVG(salary) as avg_salary FROM " ++ tableName ++
        " GROUP BY department ORDER BY avg_salary DESC LIMIT 1"
    else "SELECT * FROM " ++ tableName ++ " LIMIT 10"

/-- Tier 2, the deterministic keyword decision table (main.py:700-741), keyed
on the original lowercased question; its last branch delegates to tier 3. -/
def heuristicQuery (question processed : String) (history : List Turn)
    (tableName : String) : String :=
  let ql := lowerStr question
  if hasSub ql "平均" && (hasSub ql "工资" || hasSub ql "薪资") then
    if hasSub ql "部门" then
      if hasSub ql "最高" || hasSub ql "最大" then
        "SELECT department, AVG(salary) as avg_salary FROM " ++ tableName ++
          " GROUP BY department ORDER BY avg_salary DESC LIMIT 1"
      else if hasSub ql "最低" || hasSub ql "最小" then
        "SELECT department, AVG(salary) as avg_salary FROM " ++ tableName ++
          " GROUP BY department ORDER BY avg_salary ASC LIMIT 1"
      else
        "SELECT department, AVG(salary) as avg_salary FROM " ++ tableName ++
          " GROUP BY department ORDER BY avg_salary DESC"
    else "SELECT AVG(salary) as avg_salary FROM " ++ tableName
  else if hasSub ql "化石" || hasSub ql "年代" || hasSub ql "时间" then
    "SELECT * FROM " ++ tableName
  else if hasSub ql "最高" && (hasSub ql "工资" || hasSub ql "薪资") then
    if hasSub ql "部门" then
      "SELECT department, MAX(salary) as max_salary FROM " ++ tableName ++
        " GROUP BY department ORDER BY max_salary DESC LIMIT 1"
    else "SELECT * FROM " ++ tableName ++ " ORDER BY salary DESC LIMIT 1"
  else if hasSub ql "多少行" || hasSub ql "行数" || hasSub ql "count" then
    if hasSub ql "部门" then
      "SELECT department, COUNT(*) as count FROM " ++ tableName ++ " GROUP BY department"
    else "SELECT COUNT(*) as total_rows FROM " ++ tableName
  else if hasSub ql "前" && (hasSub ql "条" || hasSub ql "行") then
    "SELECT * FROM " ++ tableName ++ " LIMIT " ++ (firstDigitRun question).getD "10"
  else if hasSub ql "各" && hasSub ql "部门" then
    "SELECT department, COUNT(*) as count, AVG(salary) as avg_salary FROM " ++
      tableName ++ " GROUP BY department"
  else if hasSub ql "所有" || hasSub ql "全部" then
    "SELECT * FROM " ++ tableName
  else if (has_pronoun_reference question ||
      has_implicit_context_reference question history) && !history.isEmpty then
    generate_contextual_query processed history tableName
  else "SELECT * FROM " ++ tableName ++ " LIMIT 20"

/-- The full generation cascade of `query_data` (main.py:654-741).
`llmQ = none`: no model configured; `llmQ = some none`: the external call
raised; `llmQ = some (some s)`: the external call returned text `s`.  When the
tier-1 scan finds no opening line the code substitutes a fixed preview query
(main.py:692-694) instead of falling through to tier 2. -/
def plannedQuery (question processed : String) (history : List Turn)
    (tableName : String) (llmQ : Option (Option String)) : String :=
  match llmQ with
  | some (some s) =>
    match sanitizeLLMSql s with
    | some q => q
    | none => "SELECT * FROM " ++ tableName ++ " LIMIT 10"
  | some none => heuristicQuery question processed history tableName
  | none => heuristicQuery question processed history tableName

/-! ### Session/conversation stores and the request handlers -/

/-- The per-dataset metadata `query_data` reads (`sessions[...]`). -/
structure SessionInfo where
  table_name : String

/-- The `/query` request body. -/
structure QueryRequest where
  question : String
  session_id : String
  conversation_id : Option String

/-- The `/query` response (the constant `note` field is omitted); error
responses carry no conversation id. -/
structure QueryResponse where
  question : String
  answer : String
  success : Bool
  conversation_id : Option String

/-- The process-wide conversation store: an insertion-ordered map. -/
abbrev Conversations := List (String × List Turn)

/-- First-match lookup in an insertion-ordered map (Python dict read). -/
def lookupA {α : Type} (m : List (String × α)) (k : String) : Option α :=
  match m with
  | [] => none
  | (k2, v) :: t => if k2 == k then some v else lookupA t k

/-- Python dict write: replace in place, else append. -/
def setA {α : Type} (m : List (String × α)) (k : String) (v : α) :
    List (String × α) :=
  match m with
  | [] => [(k, v)]
  | (k2, v2) :: t => if k2 == k then (k2, v) :: t else (k2, v2) :: setA t k v

/-- Lazy creation of a conversation entry (main.py:643-644). -/
def ensureConv (convs : Conversations) (cid : String) : Conversations :=
  if (lookupA convs cid).isSome then convs else setA convs cid []

/-- Append a turn and truncate to the 10 most recent (main.py:753-755). -/
def appendTurn (h : List Turn) (t : Turn) : List Turn :=
  let h2 := h ++ [t]
  if 10 < h2.length then h2.drop (h2.length - 10) else h2

/-- The conversation id actually used by a request (main.py:642). -/
def defaultCid (req : QueryRequest) : String :=
  req.conversation_id.getD ("conv_" ++ req.session_id ++ "_default")

/-- The history `query_data` works on, after lazy creation. -/
def historyOf (convs : Conversations) (cid : String) : List Turn :=
  (lookupA (ensureConv convs cid) cid).getD []

/-- The query text chosen by the cascade for a given request and store state. -/
def chosenQuery (req : QueryRequest) (convs : Conversations) (info : SessionInfo)
    (llmQ : Option (Option String)) : String :=
  let history := historyOf convs (defaultCid req)
  plannedQuery req.question (process_pronoun_references req.question history)
    history info.table_name llmQ

/-- The external effects a `/query` call may trigger: the two `create_llm`
call sites and SQL execution against the session's database. -/
structure QueryOracle where
  llmQ : Option (Option String)
  llm2 : Option LLM
  exec : String → Except String (List Row)

/-- `query_data` (main.py:633-770).  Every internal exception — including the
404 raised for an unknown session and the 500 wrapping an SQL failure — is
caught by the handler's own `except` and turned into a `success = false`
response whose answer embeds `str(e)`. -/
def query_data (sessions : List (String × SessionInfo)) (convs : Conversations)
    (req : QueryRequest) (o : QueryOracle) : QueryResponse × Conversations :=
  match lookupA sessions req.session_id with
  | none => (⟨req.question, "查询出错：404: 会话不存在", false, none⟩, convs)
  | some info =>
    let cid := defaultCid req
    let convs1 := ensureConv convs cid
    let history := historyOf convs cid
    let sqlQuery := chosenQuery req convs info o.llmQ
    match o.exec sqlQuery with
    | .error msg =>
      (⟨req.question, "查询出错：500: SQL执行失败: " ++ msg, false, none⟩, convs1)
    | .ok rows =>
      match create_full_response req.question sqlQuery rows info.table_name
          history o.llm2 with
      | .error msg => (⟨req.question, "查询出错：" ++ msg, false, none⟩, convs1)
      | .ok fullAnswer =>
        match format_answer req.question sqlQuery rows info.table_name with
        | .error msg => (⟨req.question, "查询出错：" ++ msg, false, none⟩, convs1)
        | .ok _ =>
          let newHist := appendTurn history (req.question, fullAnswer)
          (⟨req.question, fullAnswer, true, some cid⟩, setA convs1 cid newHist)

/-- Fold a sequence of question-answering operations over the conversation
store. -/
def runQueries (sessions : List (String × SessionInfo))
    (ops : List (QueryRequest × QueryOracle)) (convs : Conversations) :
    Conversations :=
  match ops with
  | [] => convs
  | (req, o) :: t => runQueries sessions t (query_data sessions convs req o).2

/-- Every stored turn list has at most 10 entries. -/
def allConvsLe10 (convs : Conversations) : Bool :=
  convs.all fun p => decide (p.2.length ≤ 10)

/-- An HTTP error raised at the boundary (`HTTPException`). -/
structure HTTPError where
  statusCode : Nat
  detail : String
deriving DecidableEq

/-- `get_conversation_history` (main.py:854-866): 404 only for an unknown
session; an unknown conversation id yields an empty history. -/
def get_conversation_history (sessions : List (String × SessionInfo))
    (convs : Conversations) (sessionId conversationId : String) :
    Except HTTPError (String × List Turn) :=
  if (lookupA sessions sessionId).isNone then .error ⟨404, "会话不存在"⟩
  else
    match lookupA convs conversationId with
    | none => .ok (conversationId, [])
    | some h => .ok (conversationId, h)

/-! ### Temporal-range analyzer (spec §4.4)

`analyze_geological_time` is imported by `src/test_geological_analysis.py` but
its definition is not part of `src/`; the era-membership filter is modelled
from the spec. -/

/-- A dataset row as the analyzer sees it. -/
structure GenusRow where
  name : String
  firstAppearance : ℚ
  lastAppearance : ℚ

/-- Modelled from the spec: plain era membership of the era-membership filter
of `analyze_geological_time` (absent from `src/`) —
`first ≤ 485.4 ∧ last ≥ 443.8`.  The thresholds are written with `mkRat` so
that the predicate evaluates by kernel reduction; `mkRat 4854 10 = 485.4`. -/
def eraMembershipPlain (r : GenusRow) : Bool :=
  decide (r.firstAppearance ≤ mkRat 4854 10) && decide (mkRat 4438 10 ≤ r.lastAppearance)

/-- Modelled from the spec: the "extinct before a sub-era" sub-case —
`first ≤ 485.4 ∧ last > 458.4 ∧ first > last`. -/
def extinctBeforeSubEra (r : GenusRow) : Bool :=
  decide (r.firstAppearance ≤ mkRat 4854 10) && decide (mkRat 4584 10 < r.lastAppearance) &&
    decide (r.lastAppearance < r.firstAppearance)

/-- Modelled from the spec: names of the rows selected by a filter sub-case. -/
def eraFilterNames (rows : List GenusRow) (p : GenusRow → Bool) : List String :=
  (rows.filter p).map (·.name)

/-- Modelled from the spec: formatted list of matching entity names, or the
literal "no matches" sentinel when none match. -/
def eraFilterAnswer (rows : List GenusRow) (p : GenusRow → Bool) : String :=
  let names := eraFilterNames rows p
  if names.isEmpty then "no matches" else intercalateStr ", " names

/-- Two stored turns agree on question text and on the narrative portion of
the answer (they may differ in the embedded SQL trace). -/
def turnAgrees (a b : Turn) : Prop :=
  a.1 = b.1 ∧
    extract_answer_from_full_response a.2 = extract_answer_from_full_response b.2

/-- Two conversation histories agree turnwise on questions and narratives. -/
def NarrativeAgree (h1 h2 : List Turn) : Prop := List.Forall₂ turnAgrees h1 h2

/-! ## Helper lemmas -/

theorem chStartsWith_nil (l : List Char) : chStartsWith l [] = true := by
  cases l <;> rfl

theorem chStartsWith_append (p l m : List Char) (h : chStartsWith l p = true) :
    chStartsWith (l ++ m) p = true := by
  induction p generalizing l with
  | nil => exact chStartsWith_nil _
  | cons b bs ih =>
    cases l with
    | nil => simp [chStartsWith] at h
    | cons a as =>
      simp only [chStartsWith, Bool.and_eq_true] at h
      simp only [List.cons_append, chStartsWith, Bool.and_eq_true]
      exact ⟨h.1, ih as h.2⟩

theorem strStartsWith_append (a b p : String) (h : strStartsWith a p = true) :
    strStartsWith (a ++ b) p = true := by
  unfold strStartsWith at h ⊢
  rw [String.data_append]
  exact chStartsWith_append _ _ _ h

theorem appendTurn_eq_drop (h : List Turn) (t : Turn) :
    appendTurn h t = (h ++ [t]).drop (h.length + 1 - 10) := by
  simp only [appendTurn]
  by_cases hc : 10 < (h ++ [t]).length
  · rw [if_pos hc]
    congr 1
    simp [List.length_append]
  · rw [if_neg hc]
    have h0 : h.length + 1 - 10 = 0 := by
      simp only [List.length_append, List.length_cons, List.length_nil] at hc
      omega
    rw [h0, List.drop_zero]

theorem appendTurn_length_le (h : List Turn) (t : Turn) :
    (appendTurn h t).length ≤ 10 := by
  rw [appendTurn_eq_drop]
  simp only [List.length_drop, List.length_append, List.length_cons, List.length_nil]
  omega

theorem lookupA_setA {α : Type} (m : List (String × α)) (k : String) (v : α)
    (c : String) :
    lookupA (setA m k v) c = if k = c then some v else lookupA m c := by
  induction m with
  | nil =>
    by_cases h : k = c <;> simp [setA, lookupA, h]
  | cons p t ih =>
    obtain ⟨k2, v2⟩ := p
    by_cases h1 : k2 = k
    · subst h1
      by_cases h2 : k2 = c <;> simp [setA, lookupA, h2]
    · by_cases h2 : k2 = c
      · subst h2
        simp [setA, lookupA, h1, Ne.symm h1]
      · simp [setA, lookupA, h1, h2, ih]

theorem lookupA_ensureConv_of_some (convs : Conversations) (cid c : String)
    (h : List Turn) (hc : lookupA convs c = some h) :
    lookupA (ensureConv convs cid) c = some h := by
  unfold ensureConv
  by_cases hx : (lookupA convs cid).isSome
  · simp [hx, hc]
  · rw [if_neg hx, lookupA_setA]
    by_cases he : cid = c
    · subst he
      rw [hc] at hx
      simp at hx
    · simp [he, hc]

theorem setA_bound (convs : Conversations) (k : String) (v : List Turn)
    (hb : ∀ p ∈ convs, p.2.length ≤ 10) (hv : v.length ≤ 10) :
    ∀ p ∈ setA convs k v, p.2.length ≤ 10 := by
  induction convs with
  | nil =>
    intro p hp
    simp only [setA, List.mem_singleton] at hp
    subst hp
    exact hv
  | cons q t ih =>
    intro p hp
    obtain ⟨k2, v2⟩ := q
    simp only [setA] at hp
    split at hp
    · rcases List.mem_cons.mp hp with h | h
      · subst h; exact hv
      · exact hb _ (List.mem_cons_of_mem _ h)
    · rcases List.mem_cons.mp hp with h | h
      · subst h; exact hb _ (List.mem_cons_self _ _)
      · exact ih (fun p hp => hb p (List.mem_cons_of_mem _ hp)) _ h

theorem ensureConv_bound (convs : Conversations) (cid : String)
    (hb : ∀ p ∈ convs, p.2.length ≤ 10) :
    ∀ p ∈ ensureConv convs cid, p.2.length ≤ 10 := by
  unfold ensureConv
  split
  · exact hb
  · exact setA_bound _ _ _ hb (by simp)

theorem query_data_bound (sessions : List (String × SessionInfo))
    (convs : Conversations) (req : QueryRequest) (o : QueryOracle)
    (hb : ∀ p ∈ convs, p.2.length ≤ 10) :
    ∀ p ∈ (query_data sessions convs req o).2, p.2.length ≤ 10 := by
  simp only [query_data]
  cases hl : lookupA sessions req.session_id with
  | none => simpa using hb
  | some info =>
    simp only []
    cases he : o.exec (chosenQuery req convs info o.llmQ) with
    | error msg => simpa using ensureConv_bound _ _ hb
    | ok rows =>
      simp only []
      cases hc : create_full_response req.question (chosenQuery req convs info o.llmQ)
          rows info.table_name (historyOf convs (defaultCid req)) o.llm2 with
      | error msg => simpa using ensureConv_bound _ _ hb
      | ok fullAnswer =>
        simp only []
        cases hf : format_answer req.question (chosenQuery req convs info o.llmQ)
            rows info.table_name with
        | error msg => simpa using ensureConv_bound _ _ hb
        | ok _ =>
          simpa using setA_bound _ _ _ (ensureConv_bound _ _ hb)
            (appendTurn_length_le _ _)

theorem runQueries_bound (sessions : List (String × SessionInfo))
    (ops : List (QueryRequest × QueryOracle)) (convs : Conversations)
    (hb : ∀ p ∈ convs, p.2.length ≤ 10) :
    ∀ p ∈ runQueries sessions ops convs, p.2.length ≤ 10 := by
  induction ops generalizing convs with
  | nil => simpa [runQueries] using hb
  | cons op t ih =>
    obtain ⟨req, o⟩ := op
    simp only [runQueries]
    exact ih _ (query_data_bound _ _ _ _ hb)

/-! ## Claim theorems -/

/-- C1: for every sequence of question-answering operations starting from the
empty conversation store, every stored turn list has at most 10 turns; and one
append step keeps exactly the most recent 10 turns, evicting the oldest first
and preserving the relative order of the rest (the new list is the suffix of
`history ++ [turn]` obtained by dropping the excess oldest turns). -/
theorem c1_turn_list_bounded :
    (∀ (sessions : List (String × SessionInfo))
       (ops : List (QueryRequest × QueryOracle)),
       allConvsLe10 (runQueries sessions ops []) = true) ∧
    (∀ (h : List Turn) (t : Turn),
       appendTurn h t = (h ++ [t]).drop (h.length + 1 - 10)) := by
  constructor
  · intro sessions ops
    rw [allConvsLe10, List.all_eq_true]
    intro p hp
    simpa using runQueries_bound sessions ops [] (by simp) p hp
  · exact appendTurn_eq_drop

/-- C2 (amended): on zero result rows the Formatter returns the exact unknown
sentinel, while the Assembler returns the sentinel with the SQL-trace display
prepended — its narrative portion is the exact sentinel, but the full answer is
not the bare sentinel. -/
theorem c2_empty_result_sentinel (question sqlQuery tableName : String)
    (history : List Turn) (llm : Option LLM) :
    format_answer question sqlQuery [] tableName = .ok "我不知道" ∧
    create_full_response question sqlQuery [] tableName history llm =
      .ok (mkTrace sqlQuery ++ "我不知道") := by
  constructor
  · rfl
  · cases llm with
    | none => rfl
    | some f =>
      have ha : analyze_with_llm question sqlQuery [] (some f) history = "我不知道" := rfl
      simp only [create_full_response, ha]
      rw [if_neg (by simp)]
      rfl

/-- C2 counterexample: with zero result rows the Answer Assembler does not
return the bare "我不知道" sentinel — the SQL-trace display is prepended. -/
theorem c2_assembler_counterexample :
    create_full_response "问题" "SELECT 1" [] "data_table" [] none =
      Except.ok ("🔍 **SQL查询**: ```sql\nSELECT 1\n```\n\n我不知道") ∧
    ("🔍 **SQL查询**: ```sql\nSELECT 1\n```\n\n我不知道" : String) ≠ "我不知道" :=
  ⟨rfl, by decide⟩

/-- C3 (amended): when the tier-1 scan of the external output finds no line
starting with SELECT/WITH, the code does not fall through to the heuristic
tier: it substitutes the fixed preview query `SELECT * FROM <table> LIMIT 10`.
The heuristic tier is used exactly when no external model is configured or the
external call raised. -/
theorem c3_tier1_default_query (s question processed : String)
    (history : List Turn) (tableName : String)
    (hs : sanitizeLLMSql s = none) :
    plannedQuery question processed history tableName (some (some s)) =
      "SELECT * FROM " ++ tableName ++ " LIMIT 10" ∧
    plannedQuery question processed history tableName (some none) =
      heuristicQuery question processed history tableName ∧
    plannedQuery question processed history tableName none =
      heuristicQuery question processed history tableName := by
  refine ⟨?_, rfl, rfl⟩
  simp only [plannedQuery, hs]

/-- Witness for C3's amended theorem at a concrete refusal text. -/
theorem c3_tier1_default_query_witness :
    plannedQuery "哪个部门的平均工资最高" "哪个部门的平均工资最高" [] "data_table"
      (some (some "抱歉，我无法生成查询")) = "SELECT * FROM " ++ "data_table" ++ " LIMIT 10" ∧
    plannedQuery "哪个部门的平均工资最高" "哪个部门的平均工资最高" [] "data_table"
      (some none) =
      heuristicQuery "哪个部门的平均工资最高" "哪个部门的平均工资最高" [] "data_table" ∧
    plannedQuery "哪个部门的平均工资最高" "哪个部门的平均工资最高" [] "data_table"
      none =
      heuristicQuery "哪个部门的平均工资最高" "哪个部门的平均工资最高" [] "data_table" :=
  c3_tier1_default_query "抱歉，我无法生成查询" "哪个部门的平均工资最高"
    "哪个部门的平均工资最高" [] "data_table" rfl

/-- C3 counterexample: an external output with no SELECT/WITH line makes tier 1
produce the fixed preview query, which differs from what the heuristic tier
would produce for the same question — so the heuristic tier is not attempted. -/
theorem c3_counterexample :
    sanitizeLLMSql "这不是一条查询语句" = none ∧
    plannedQuery "哪个部门的平均工资最高" "哪个部门的平均工资最高" [] "data_table"
      (some (some "这不是一条查询语句")) = "SELECT * FROM data_table LIMIT 10" ∧
    heuristicQuery "哪个部门的平均工资最高" "哪个部门的平均工资最高" [] "data_table" =
      "SELECT department, AVG(salary) as avg_salary FROM data_table GROUP BY department ORDER BY avg_salary DESC LIMIT 1" ∧
    ("SELECT * FROM data_table LIMIT 10" : String) ≠
      "SELECT department, AVG(salary) as avg_salary FROM data_table GROUP BY department ORDER BY avg_salary DESC LIMIT 1" :=
  ⟨rfl, rfl, rfl, by decide⟩

theorem gen_ctx_select (processed : String) (history : List Turn)
    (tableName : String) :
    strStartsWith (generate_contextual_query processed history tableName)
      "SELECT" = true := by
  unfold generate_contextual_query
  cases history.getLast? with
  | none => exact strStartsWith_append _ _ _ (strStartsWith_append _ _ _ (by decide))
  | some p =>
    obtain ⟨lq, la⟩ := p
    dsimp only
    split
    · exact strStartsWith_append _ _ _ (strStartsWith_append _ _ _ (by decide))
    · exact strStartsWith_append _ _ _ (strStartsWith_append _ _ _ (by decide))

/-- C4: every query string produced by the deterministic heuristic tier and by
the contextual heuristic tier begins with the read-only keyword SELECT. -/
theorem c4_planner_readonly (question processed : String) (history : List Turn)
    (tableName : String) :
    strStartsWith (heuristicQuery question processed history tableName)
      "SELECT" = true ∧
    strStartsWith (generate_contextual_query processed history tableName)
      "SELECT" = true := by
  refine ⟨?_, gen_ctx_select processed history tableName⟩
  simp only [heuristicQuery]
  repeat' split
  all_goals first
    | exact gen_ctx_select processed history tableName
    | exact strStartsWith_append _ _ _ (by decide)
    | exact strStartsWith_append _ _ _ (strStartsWith_append _ _ _ (by decide))
    | exact strStartsWith_append _ _ _
        (strStartsWith_append _ _ _ (strStartsWith_append _ _ _ (by decide)))
    | decide

/-- C5 (amended, spec-modelled): the era-membership filter selects exactly the
rows with `first ≤ 485.4 ∧ last ≥ 443.8`, its extinct-before sub-case exactly
the rows with `first ≤ 485.4 ∧ last > 458.4 ∧ first > last`, and the literal
"no matches" sentinel is returned when no row matches.  Genus B (480, 450)
satisfies plain membership, but genus A (490, 460) does not, since
`490 ≤ 485.4` fails. -/
theorem c5_era_membership_filter (rows : List GenusRow) (r : GenusRow)
    (hnone : ∀ x ∈ rows, eraMembershipPlain x = false) :
    eraFilterAnswer rows eraMembershipPlain = "no matches" ∧
    (eraMembershipPlain r = true ↔
      (r.firstAppearance ≤ 485.4 ∧ 443.8 ≤ r.lastAppearance)) ∧
    (extinctBeforeSubEra r = true ↔
      (r.firstAppearance ≤ 485.4 ∧ (458.4 : ℚ) < r.lastAppearance ∧
        r.lastAppearance < r.firstAppearance)) ∧
    eraMembershipPlain ⟨"GenusB", 480, 450⟩ = true ∧
    eraMembershipPlain ⟨"GenusA", 490, 460⟩ = false := by
  have e1 : (485.4 : ℚ) = mkRat 4854 10 := by norm_num [mkRat]
  have e2 : (443.8 : ℚ) = mkRat 4438 10 := by norm_num [mkRat]
  have e3 : (458.4 : ℚ) = mkRat 4584 10 := by norm_num [mkRat]
  refine ⟨?_, ?_, ?_, by decide, by decide⟩
  · have hf : rows.filter eraMembershipPlain = [] :=
      List.filter_eq_nil_iff.mpr (fun a ha => by simp [hnone a ha])
    simp [eraFilterAnswer, eraFilterNames, hf]
  · rw [e1, e2]
    simp [eraMembershipPlain, Bool.and_eq_true, decide_eq_true_eq]
  · rw [e1, e3]
    simp [extinctBeforeSubEra, Bool.and_eq_true, decide_eq_true_eq, and_assoc]

/-- Witness for C5's amended theorem: a single row appearing before the era
(first = 500) matches nothing, so the filter answers "no matches". -/
theorem c5_era_membership_filter_witness :
    eraFilterAnswer [⟨"TestGenus", 500, 400⟩] eraMembershipPlain = "no matches" ∧
    (eraMembershipPlain ⟨"TestGenus", 500, 400⟩ = true ↔
      ((500 : ℚ) ≤ 485.4 ∧ (443.8 : ℚ) ≤ 400)) ∧
    (extinctBeforeSubEra ⟨"TestGenus", 500, 400⟩ = true ↔
      ((500 : ℚ) ≤ 485.4 ∧ (458.4 : ℚ) < 400 ∧ (400 : ℚ) < 500)) ∧
    eraMembershipPlain ⟨"GenusB", 480, 450⟩ = true ∧
    eraMembershipPlain ⟨"GenusA", 490, 460⟩ = false :=
  c5_era_membership_filter [⟨"TestGenus", 500, 400⟩] ⟨"TestGenus", 500, 400⟩
    (by decide)

/-- C5 counterexample: the claim's genus A (first = 490, last = 460) does not
satisfy plain era membership, because 490 ≤ 485.4 is false. -/
theorem c5_counterexample :
    eraMembershipPlain ⟨"GenusA", 490, 460⟩ = false := by decide

/-- C6: with a non-empty history whose last stored answer contains the
highest-average phrase, and a processed follow-up containing the
average-salary keyword, the contextual tier reproduces the grouped-aggregate
query of the preceding highest-average-department turn, not the generic
preview. -/
theorem c6_contextual_followup (processed tableName lastQ lastA : String)
    (history : List Turn)
    (hpr : has_pronoun_reference processed = true ∨
      has_implicit_context_reference processed history = true)
    (hlast : history.getLast? = some (lastQ, lastA))
    (h1 : hasSub processed "平均工资" = true)
    (h2 : hasSub lastA "平均工资最高" = true) :
    generate_contextual_query processed history tableName =
      "SELECT department, AVG(salary) as avg_salary FROM " ++ tableName ++
        " GROUP BY department ORDER BY avg_salary DESC LIMIT 1" ∧
    generate_contextual_query processed history tableName ≠
      "SELECT * FROM " ++ tableName ++ " LIMIT 10" := by
  have hq : generate_contextual_query processed history tableName =
      "SELECT department, AVG(salary) as avg_salary FROM " ++ tableName ++
        " GROUP BY department ORDER BY avg_salary DESC LIMIT 1" := by
    unfold generate_contextual_query
    rw [hlast]
    dsimp only
    rw [if_pos (by simp [h1, h2])]
  refine ⟨hq, ?_⟩
  rw [hq]
  intro heq
  have hT : strStartsWith
      ("SELECT department, AVG(salary) as avg_salary FROM " ++ tableName ++
        " GROUP BY department ORDER BY avg_salary DESC LIMIT 1") "SELECT d" = true :=
    strStartsWith_append _ _ _ (strStartsWith_append _ _ _ (by decide))
  have hF : strStartsWith ("SELECT * FROM " ++ tableName ++ " LIMIT 10")
      "SELECT d" = false := rfl
  rw [heq] at hT
  cases hT.symm.trans hF

/-- Witness for C6 at a concrete follow-up after a highest-average turn. -/
theorem c6_contextual_followup_witness :
    generate_contextual_query "他们的平均工资是多少"
      [("哪个部门的平均工资最高",
        "🔍 **SQL查询**: ```sql\nSELECT 1\n```\n\n平均工资最高的部门是 技术部，平均工资为 25000.00 元。")]
      "data_table" =
      "SELECT department, AVG(salary) as avg_salary FROM " ++ "data_table" ++
        " GROUP BY department ORDER BY avg_salary DESC LIMIT 1" ∧
    generate_contextual_query "他们的平均工资是多少"
      [("哪个部门的平均工资最高",
        "🔍 **SQL查询**: ```sql\nSELECT 1\n```\n\n平均工资最高的部门是 技术部，平均工资为 25000.00 元。")]
      "data_table" ≠
      "SELECT * FROM " ++ "data_table" ++ " LIMIT 10" :=
  c6_contextual_followup "他们的平均工资是多少" "data_table"
    "哪个部门的平均工资最高"
    "🔍 **SQL查询**: ```sql\nSELECT 1\n```\n\n平均工资最高的部门是 技术部，平均工资为 25000.00 元。"
    [("哪个部门的平均工资最高",
      "🔍 **SQL查询**: ```sql\nSELECT 1\n```\n\n平均工资最高的部门是 技术部，平均工资为 25000.00 元。")]
    (Or.inl (by decide)) rfl (by decide) (by decide)

/-- C7 (amended): the highest-average-salary question yields the grouped,
descending, limit-1 heuristic query, but the Formatter renders the generic
"最大值记录" line for the returned row — the superlative branch precedes the
average branch, so the "平均工资最高的部门是…" template is never reached for a
question containing the superlative keyword. -/
theorem c7_highest_avg_scenario (processed sqlQuery tableName : String)
    (history : List Turn) (row : Row) (rest : List Row) :
    heuristicQuery "哪个部门的平均工资最高" processed history tableName =
      "SELECT department, AVG(salary) as avg_salary FROM " ++ tableName ++
        " GROUP BY department ORDER BY avg_salary DESC LIMIT 1" ∧
    format_answer "哪个部门的平均工资最高" sqlQuery (row :: rest) tableName =
      .ok ("最大值记录：" ++ joinRow row) :=
  ⟨rfl, rfl⟩

/-- C7 counterexample: for the scenario question and the single grouped result
row, the Formatter renders the generic max-record line, not the templated
highest-average-salary sentence the claim states. -/
theorem c7_counterexample :
    format_answer "哪个部门的平均工资最高"
      "SELECT department, AVG(salary) as avg_salary FROM data_table GROUP BY department ORDER BY avg_salary DESC LIMIT 1"
      [[("department", Val.vstr "技术部"), ("avg_salary", Val.vstr "25000.0")]]
      "data_table" =
      Except.ok "最大值记录：department: 技术部, avg_salary: 25000.0" ∧
    ("最大值记录：department: 技术部, avg_salary: 25000.0" : String) ≠
      "平均工资最高的部门是 技术部，平均工资为 25000.00 元。" :=
  ⟨rfl, by decide⟩

/-- C8 (amended): unknown-session references fail with a 404 on the
conversation-history endpoint, but question submission catches its own 404 and
returns a `success = false` response embedding the diagnostic, and an unknown
conversation id under a known session yields an empty history, not an error. -/
theorem c8_not_found_behaviour (sessions : List (String × SessionInfo))
    (convs : Conversations) (sidU cidU sidK cidK : String)
    (req : QueryRequest) (o : QueryOracle)
    (h1 : lookupA sessions sidU = none)
    (h2 : (lookupA sessions sidK).isSome = true)
    (h3 : lookupA convs cidK = none)
    (h4 : lookupA sessions req.session_id = none) :
    get_conversation_history sessions convs sidU cidU =
      .error ⟨404, "会话不存在"⟩ ∧
    get_conversation_history sessions convs sidK cidK = .ok (cidK, []) ∧
    query_data sessions convs req o =
      (⟨req.question, "查询出错：404: 会话不存在", false, none⟩, convs) := by
  refine ⟨?_, ?_, ?_⟩
  · simp [get_conversation_history, h1]
  · have hb : (lookupA sessions sidK).isNone = false := by
      cases hx : lookupA sessions sidK with
      | none => rw [hx] at h2; simp at h2
      | some _ => rfl
    simp [get_conversation_history, hb, h3]
  · simp [query_data, h4]

/-- Witness for C8's amended theorem at concrete stores and identifiers. -/
theorem c8_not_found_behaviour_witness :
    get_conversation_history [("session_0", ⟨"data_table"⟩)] [] "ghost" "conv_a" =
      .error ⟨404, "会话不存在"⟩ ∧
    get_conversation_history [("session_0", ⟨"data_table"⟩)] []
      "session_0" "conv_unknown" = .ok ("conv_unknown", []) ∧
    query_data [("session_0", ⟨"data_table"⟩)] []
      ⟨"你好", "session_missing", none⟩ ⟨none, none, fun _ => .ok []⟩ =
      (⟨"你好", "查询出错：404: 会话不存在", false, none⟩, []) :=
  c8_not_found_behaviour [("session_0", ⟨"data_table"⟩)] [] "ghost" "conv_a"
    "session_0" "conv_unknown" ⟨"你好", "session_missing", none⟩
    ⟨none, none, fun _ => .ok []⟩ rfl rfl rfl rfl

/-- C8 counterexample: fetching the history of an unknown conversation id under
a known session succeeds with an empty history, and submitting a question
against an unknown session id yields a caught-and-wrapped `success = false`
response — neither operation fails with a not-found error as claimed. -/
theorem c8_counterexample :
    get_conversation_history [("session_0", ⟨"data_table"⟩)] []
      "session_0" "conv_unknown" = .ok ("conv_unknown", []) ∧
    (query_data [("session_0", ⟨"data_table"⟩)] []
      ⟨"你好", "session_missing", none⟩ ⟨none, none, fun _ => .ok []⟩).1 =
      ⟨"你好", "查询出错：404: 会话不存在", false, none⟩ :=
  ⟨rfl, rfl⟩

/-- C10 (amended): when executing the chosen query fails, no turn is appended —
every conversation already in the store keeps its turn list — but the lazy
creation step may have added a fresh empty conversation entry, and the response
has `success = false` with the diagnostic embedded in the answer. -/
theorem c10_exec_failure (sessions : List (String × SessionInfo))
    (convs : Conversations) (req : QueryRequest) (o : QueryOracle)
    (info : SessionInfo) (msg : String) (c : String) (hist : List Turn)
    (hs : lookupA sessions req.session_id = some info)
    (hexec : o.exec (chosenQuery req convs info o.llmQ) = .error msg)
    (hc : lookupA convs c = some hist) :
    query_data sessions convs req o =
      (⟨req.question, "查询出错：500: SQL执行失败: " ++ msg, false, none⟩,
        ensureConv convs (defaultCid req)) ∧
    lookupA (ensureConv convs (defaultCid req)) c = some hist := by
  constructor
  · simp [query_data, hs, hexec]
  · exact lookupA_ensureConv_of_some convs (defaultCid req) c hist hc

/-- Witness for C10's amended theorem: a failing SQL execution on a store with
one existing conversation. -/
theorem c10_exec_failure_witness :
    query_data [("session_0", ⟨"data_table"⟩)]
      [("conv_old", [("以前的问题", "以前的答案")])]
      ⟨"查一下", "session_0", some "conv_new"⟩
      ⟨none, none, fun _ => .error "no such table: data_table"⟩ =
      (⟨"查一下", "查询出错：500: SQL执行失败: " ++ "no such table: data_table",
        false, none⟩,
        ensureConv [("conv_old", [("以前的问题", "以前的答案")])]
          (defaultCid ⟨"查一下", "session_0", some "conv_new"⟩)) ∧
    lookupA (ensureConv [("conv_old", [("以前的问题", "以前的答案")])]
        (defaultCid ⟨"查一下", "session_0", some "conv_new"⟩)) "conv_old" =
      some [("以前的问题", "以前的答案")] :=
  c10_exec_failure [("session_0", ⟨"data_table"⟩)]
    [("conv_old", [("以前的问题", "以前的答案")])]
    ⟨"查一下", "session_0", some "conv_new"⟩
    ⟨none, none, fun _ => .error "no such table: data_table"⟩
    ⟨"data_table"⟩ "no such table: data_table" "conv_old"
    [("以前的问题", "以前的答案")] rfl rfl rfl

/-- C10 counterexample: on a failing execution with a fresh conversation id the
store is not left unchanged — the lazily created empty conversation entry
persists. -/
theorem c10_counterexample :
    (query_data [("session_0", ⟨"data_table"⟩)] []
      ⟨"查一下", "session_0", some "conv_1"⟩
      ⟨none, none, fun _ => .error "no such table: data_table"⟩).2 =
      [("conv_1", [])] ∧
    ([("conv_1", ([] : List Turn))] : Conversations) ≠ [] :=
  ⟨rfl, by decide⟩

theorem forall₂_getLast? {R : Turn → Turn → Prop} :
    ∀ {l1 l2 : List Turn}, List.Forall₂ R l1 l2 →
      (l1 = [] ∧ l2 = []) ∨
      ∃ a b, l1.getLast? = some a ∧ l2.getLast? = some b ∧ R a b := by
  intro l1 l2 h
  induction h with
  | nil => exact Or.inl ⟨rfl, rfl⟩
  | @cons a b t1 t2 hr ht ih =>
    rcases ih with ⟨e1, e2⟩ | ⟨x, y, e1, e2, hxy⟩
    · subst e1; subst e2
      exact Or.inr ⟨a, b, rfl, rfl, hr⟩
    · cases t1 with
      | nil => simp at e1
      | cons c1 u1 =>
        cases t2 with
        | nil => simp at e2
        | cons c2 u2 =>
          refine Or.inr ⟨x, y, ?_, ?_, hxy⟩
          · rw [List.getLast?_cons_cons]; exact e1
          · rw [List.getLast?_cons_cons]; exact e2

theorem contextEntries_agree :
    ∀ (i : Nat) {l1 l2 : List Turn}, List.Forall₂ turnAgrees l1 l2 →
      contextEntries i l1 = contextEntries i l2 := by
  intro i l1 l2 h
  induction h generalizing i with
  | nil => rfl
  | @cons a b t1 t2 hr ht ih =>
    obtain ⟨qa, fa⟩ := a
    obtain ⟨qb, fb⟩ := b
    have hq' : qa = qb := hr.1
    have ha' : extract_answer_from_full_response fa =
      extract_answer_from_full_response fb := hr.2
    simp only [contextEntries]
    rw [hq', ha', ih]

theorem implicit_congr (q : String) (h1 h2 : List Turn)
    (he : h1.isEmpty = h2.isEmpty) :
    has_implicit_context_reference q h1 = has_implicit_context_reference q h2 := by
  unfold has_implicit_context_reference
  rw [he]

theorem contextInfo_agree (q : String) {h1 h2 : List Turn}
    (hag : NarrativeAgree h1 h2) :
    contextInfoOf q h1 = contextInfoOf q h2 := by
  have hlen := List.Forall₂.length_eq hag
  have hemp : h1.isEmpty = h2.isEmpty := by
    cases h1 <;> cases h2 <;> simp_all
  unfold contextInfoOf
  rw [hemp, implicit_congr q h1 h2 hemp, hlen,
    contextEntries_agree 0 (List.forall₂_drop (h2.length - 3) hag)]

/-- C9: the Reference Resolver and the summarization analysis consume only the
narrative portion of prior answers — for two histories agreeing on question
texts and narratives but differing in the embedded SQL traces, the resolved
question and the full analysis prompt coincide. -/
theorem c9_trace_noninterference (q sqlQuery : String) (result : List Row)
    (h1 h2 : List Turn) (hag : NarrativeAgree h1 h2) :
    process_pronoun_references q h1 = process_pronoun_references q h2 ∧
    analysisPrompt q sqlQuery result h1 = analysisPrompt q sqlQuery result h2 := by
  have hemp : h1.isEmpty = h2.isEmpty := by
    have hlen := List.Forall₂.length_eq hag
    cases h1 <;> cases h2 <;> simp_all
  constructor
  · unfold process_pronoun_references
    rcases forall₂_getLast? hag with ⟨e1, e2⟩ | ⟨a, b, e1, e2, hab⟩
    · subst e1; subst e2; rfl
    · rw [e1, e2]
      obtain ⟨qa, fa⟩ := a
      obtain ⟨qb, fb⟩ := b
      have hq' : qa = qb := hab.1
      have ha' : extract_answer_from_full_response fa =
        extract_answer_from_full_response fb := hab.2
      dsimp only
      rw [hq', ha', implicit_congr q h1 h2 hemp]
  · unfold analysisPrompt
    rw [contextInfo_agree q hag]

/-- Witness for C9: two one-turn histories whose stored answers differ only in
the embedded SQL trace. -/
theorem c9_trace_noninterference_witness :
    process_pronoun_references "它们的平均工资是多少"
      [("哪个部门的平均工资最高",
        "🔍 **SQL查询**: ```sql\nSELECT 1\n```\n\n技术部门的平均工资最高")] =
    process_pronoun_references "它们的平均工资是多少"
      [("哪个部门的平均工资最高",
        "🔍 **SQL查询**: ```sql\nSELECT 2 FROM x\n```\n\n技术部门的平均工资最高")] ∧
    analysisPrompt "它们的平均工资是多少" "SELECT 1"
      [[("department", Val.vstr "技术部")]]
      [("哪个部门的平均工资最高",
        "🔍 **SQL查询**: ```sql\nSELECT 1\n```\n\n技术部门的平均工资最高")] =
    analysisPrompt "它们的平均工资是多少" "SELECT 1"
      [[("department", Val.vstr "技术部")]]
      [("哪个部门的平均工资最高",
        "🔍 **SQL查询**: ```sql\nSELECT 2 FROM x\n```\n\n技术部门的平均工资最高")] :=
  c9_trace_noninterference "它们的平均工资是多少" "SELECT 1"
    [[("department", Val.vstr "技术部")]]
    [("哪个部门的平均工资最高",
      "🔍 **SQL查询**: ```sql\nSELECT 1\n```\n\n技术部门的平均工资最高")]
    [("哪个部门的平均工资最高",
      "🔍 **SQL查询**: ```sql\nSELECT 2 FROM x\n```\n\n技术部门的平均工资最高")]
    (List.Forall₂.cons ⟨rfl, by decide⟩ List.Forall₂.nil)

end SQA
